import Mathlib

/-!
Shallow embedding of `langchain/document_loaders/url_selenium.py`
(`SeleniumURLLoader`): a loader that drives a Selenium browser session over a
list of URLs, reads each rendered page source, partitions the HTML into text
elements with `unstructured.partition.html.partition_html`, and assembles one
`Document` per successfully processed URL.

The external effects (browser navigation, reading the rendered source,
HTML partitioning) are modelled as oracle functions collected in `Browsing`;
each may fail with an exception value of an abstract type `ε`, mirroring the
single `except Exception` block of the Python loop.  The driver's `quit()`
call is modelled by a counter in the returned `LoadResult`, and the mutable
`self` of the Python method is threaded explicitly: `load` records the state
of the loader object when it returns.
-/

namespace UrlSelenium

/-- Output record built by `SeleniumURLLoader.load`: `Document(page_content=...,
metadata=...)`.  The Python metadata dict holds the single key `"source"`; it
is embedded as an association list. -/
structure Document where
  page_content : String
  metadata : List (String × String)
  deriving Repr, DecidableEq

/-- The loader's configuration, set by `SeleniumURLLoader.__init__`:
`self.urls`, `self.continue_on_failure`, `self.browser`,
`self.executable_path`, `self.headless`. -/
structure SeleniumURLLoader where
  urls : List String
  continue_on_failure : Bool
  browser : String
  executable_path : Option String
  headless : Bool
  deriving Repr, DecidableEq

/-- `SeleniumURLLoader.__init__`: the two import checks are modelled by two
availability flags; a missing package raises `ValueError` (the `.error` case)
with the corresponding message, otherwise the five attributes are stored
unchanged. -/
def init (selenium_available unstructured_available : Bool)
    (urls : List String) (continue_on_failure : Bool) (browser : String)
    (executable_path : Option String) (headless : Bool) :
    Except String SeleniumURLLoader :=
  if selenium_available = false then
    Except.error "selenium package not found, please install it with `pip install selenium`"
  else if unstructured_available = false then
    Except.error "unstructured package not found, please install it with `pip install unstructured`"
  else
    Except.ok ⟨urls, continue_on_failure, browser, executable_path, headless⟩

/-- The two branches of `_get_driver`. -/
inductive BrowserKind where
  | chrome
  | firefox
  deriving Repr, DecidableEq

/-- The WebDriver value built by `_get_driver`: which constructor ran
(`Chrome` or `Firefox`), the option arguments added, and the
`executable_path` passed through (`none` when the keyword was omitted). -/
structure Driver where
  kind : BrowserKind
  arguments : List String
  executable_path : Option String
  deriving Repr, DecidableEq

/-- `SeleniumURLLoader._get_driver`: branches on `self.browser.lower()`,
adds `--headless` when `self.headless`, forwards `self.executable_path`
when present, and raises `ValueError` (the `.error` case) on any other
browser string. -/
def get_driver (self : SeleniumURLLoader) : Except String Driver :=
  if self.browser.toLower = "chrome" then
    let chrome_options := if self.headless then ["--headless"] else []
    match self.executable_path with
    | none => Except.ok ⟨BrowserKind.chrome, chrome_options, none⟩
    | some p => Except.ok ⟨BrowserKind.chrome, chrome_options, some p⟩
  else if self.browser.toLower = "firefox" then
    let firefox_options := if self.headless then ["--headless"] else []
    match self.executable_path with
    | none => Except.ok ⟨BrowserKind.firefox, firefox_options, none⟩
    | some p => Except.ok ⟨BrowserKind.firefox, firefox_options, some p⟩
  else
    Except.error "Invalid browser specified. Use 'chrome' or 'firefox'."

/-- The external effects used inside the loop of `load`, as oracles:
`driver.get(url)`, `driver.page_source` (indexed by the URL the driver last
navigated to), and `partition_html(text=page_content)` returning the
stringified elements.  Each may raise, modelled by `Except ε`. -/
structure Browsing (ε : Type) where
  get : String → Except ε Unit
  page_source : String → Except ε String
  partition_html : String → Except ε (List String)

/-- The body of the `try` block of `load` for one URL: navigate, read the
rendered source, partition it, join the element strings with `"\n\n"`, and
build the `Document` with `metadata = [("source", url)]`.  The first failing
step aborts the block with its exception. -/
def processURL {ε : Type} (w : Browsing ε) (url : String) : Except ε Document :=
  match w.get url with
  | Except.error e => Except.error e
  | Except.ok _ =>
    match w.page_source url with
    | Except.error e => Except.error e
    | Except.ok page_content =>
      match w.partition_html page_content with
      | Except.error e => Except.error e
      | Except.ok elements =>
        Except.ok ⟨String.intercalate "\n\n" elements, [("source", url)]⟩

/-- The `for url in self.urls` loop of `load`: returns the accumulated
documents, the list of URLs for which `driver.get` was invoked (in order),
and `some e` when an exception `e` escaped the loop (only possible when
`continue_on_failure` is false; the Python `raise e` re-raises it). -/
def loadLoop {ε : Type} (continue_on_failure : Bool) (w : Browsing ε) :
    List String → List Document × List String × Option ε
  | [] => ([], [], none)
  | url :: rest =>
    match processURL w url with
    | Except.ok doc =>
      let r := loadLoop continue_on_failure w rest
      (doc :: r.1, url :: r.2.1, r.2.2)
    | Except.error e =>
      if continue_on_failure then
        let r := loadLoop continue_on_failure w rest
        (r.1, url :: r.2.1, r.2.2)
      else
        ([], [url], some e)

/-- Errors that can escape `load`: the `ValueError` raised by `_get_driver`,
or a per-URL exception re-raised when `continue_on_failure` is false. -/
inductive LoadError (ε : Type) where
  | invalidBrowser (msg : String)
  | urlFailure (e : ε)
  deriving Repr, DecidableEq

/-- The observable outcome of one `load()` call: its return value or escaping
exception, how many times `driver.quit()` ran, which URLs were navigated to,
and the state of the loader object afterwards (threaded explicitly; the
Python body never assigns to `self`). -/
structure LoadResult (ε : Type) where
  result : Except (LoadError ε) (List Document)
  quit_calls : Nat
  attempted : List String
  self_after : SeleniumURLLoader
  deriving Repr

/-- `SeleniumURLLoader.load`: create the driver (propagating its
`ValueError`), run the loop, and — only when no exception escapes the loop —
call `driver.quit()` and return the documents.  When the loop re-raises,
the `driver.quit()` line below the loop is never reached. -/
def load {ε : Type} (self : SeleniumURLLoader) (w : Browsing ε) : LoadResult ε :=
  match get_driver self with
  | Except.error msg => ⟨Except.error (LoadError.invalidBrowser msg), 0, [], self⟩
  | Except.ok _driver =>
    let r := loadLoop self.continue_on_failure w self.urls
    match r.2.2 with
    | some e => ⟨Except.error (LoadError.urlFailure e), 0, r.2.1, self⟩
    | none => ⟨Except.ok r.1, 1, r.2.1, self⟩

/-! ### General lemmas about lowercasing and the loop -/

/-- `Char.ofNat` on a valid scalar value round-trips through `toNat`. -/
theorem char_toNat_ofNat (m : Nat) (h : m.isValidChar) : (Char.ofNat m).toNat = m := by
  rw [Char.ofNat, dif_pos h]
  simp [Char.ofNatAux, Char.toNat, UInt32.toNat, BitVec.ofNatLt]

/-- `Char.toLower` is idempotent. -/
theorem char_toLower_idem (c : Char) : c.toLower.toLower = c.toLower := by
  by_cases h : c.toNat ≥ 65 ∧ c.toNat ≤ 90
  · have h1 : c.toLower = Char.ofNat (c.toNat + 32) := by
      unfold Char.toLower
      rw [if_pos h]
    have hv : (Char.ofNat (c.toNat + 32)).toNat = c.toNat + 32 :=
      char_toNat_ofNat _ (Or.inl (by omega))
    rw [h1]
    unfold Char.toLower
    rw [if_neg (by rw [hv]; omega)]
  · have h1 : c.toLower = c := by
      unfold Char.toLower
      rw [if_neg h]
    rw [h1, h1]

/-- `String.toLower` is idempotent (so `browser.lower()` is a projection). -/
theorem string_toLower_idem (s : String) : s.toLower.toLower = s.toLower := by
  unfold String.toLower
  rw [String.map_eq, String.map_eq]
  congr 1
  rw [List.map_map]
  exact List.map_congr_left fun c _ => char_toLower_idem c

/-- Computation rule for `String.toLower` (the recursor-defined `String.map`
does not reduce definitionally). -/
theorem string_toLower_data (s : String) : s.toLower = ⟨s.data.map Char.toLower⟩ := by
  rw [String.toLower, String.map_eq]

/-- A generic length law: `filterMap` keeps all but the `none`-valued
elements. -/
theorem length_filterMap_eq_sub {α β : Type} (f : α → Option β) (l : List α) :
    (l.filterMap f).length = l.length - l.countP (fun a => (f a).isNone) := by
  induction l with
  | nil => rfl
  | cons a rest ih =>
    have hle : rest.countP (fun a => (f a).isNone) ≤ rest.length :=
      List.countP_le_length _
    cases h : f a with
    | none => simp [List.filterMap_cons, List.countP_cons, h, ih]
    | some b => simp [List.filterMap_cons, List.countP_cons, h, ih]; omega

/-! ### Lemmas about `processURL`, `loadLoop` and `load` -/

/-- Shape of a successful per-URL step: all three oracle calls succeeded and
the document is the join of the elements with the `source` metadata. -/
theorem processURL_ok_shape {ε : Type} {w : Browsing ε} {u : String} {doc : Document}
    (h : processURL w u = Except.ok doc) :
    ∃ pc els, w.get u = Except.ok () ∧ w.page_source u = Except.ok pc ∧
      w.partition_html pc = Except.ok els ∧
      doc = ⟨String.intercalate "\n\n" els, [("source", u)]⟩ := by
  unfold processURL at h
  split at h
  · exact absurd h (by simp)
  · rename_i unitv hg
    split at h
    · exact absurd h (by simp)
    · rename_i pc hs
      split at h
      · exact absurd h (by simp)
      · rename_i els hp
        cases unitv
        exact ⟨pc, els, hg, hs, hp, (Except.ok.inj h).symm⟩

/-- Unfolding rule for the loop when the head URL succeeds. -/
theorem loadLoop_cons_ok {ε : Type} {cof : Bool} {w : Browsing ε} {u : String}
    {doc : Document} (rest : List String) (hp : processURL w u = Except.ok doc) :
    loadLoop cof w (u :: rest) =
      (doc :: (loadLoop cof w rest).1, u :: (loadLoop cof w rest).2.1,
        (loadLoop cof w rest).2.2) := by
  show (match processURL w u with
    | Except.ok doc =>
      let r := loadLoop cof w rest
      (doc :: r.1, u :: r.2.1, r.2.2)
    | Except.error e =>
      if cof then
        let r := loadLoop cof w rest
        (r.1, u :: r.2.1, r.2.2)
      else ([], [u], some e)) = _
  rw [hp]

/-- Unfolding rule for the loop when the head URL fails and the policy is to
log and continue. -/
theorem loadLoop_cons_error_continue {ε : Type} {w : Browsing ε} {u : String}
    {e : ε} (rest : List String) (hp : processURL w u = Except.error e) :
    loadLoop true w (u :: rest) =
      ((loadLoop true w rest).1, u :: (loadLoop true w rest).2.1,
        (loadLoop true w rest).2.2) := by
  show (match processURL w u with
    | Except.ok doc =>
      let r := loadLoop true w rest
      (doc :: r.1, u :: r.2.1, r.2.2)
    | Except.error e =>
      if true then
        let r := loadLoop true w rest
        (r.1, u :: r.2.1, r.2.2)
      else ([], [u], some e)) = _
  rw [hp]
  rfl

/-- Unfolding rule for the loop when the head URL fails and the policy is to
abort: the exception escapes at once. -/
theorem loadLoop_cons_error_abort {ε : Type} {w : Browsing ε} {u : String}
    {e : ε} (rest : List String) (hp : processURL w u = Except.error e) :
    loadLoop false w (u :: rest) = ([], [u], some e) := by
  show (match processURL w u with
    | Except.ok doc =>
      let r := loadLoop false w rest
      (doc :: r.1, u :: r.2.1, r.2.2)
    | Except.error e =>
      if false then
        let r := loadLoop false w rest
        (r.1, u :: r.2.1, r.2.2)
      else ([], [u], some e)) = _
  rw [hp]
  rfl

/-- With `continue_on_failure` true the loop visits every URL, never lets an
exception escape, and collects exactly the successful documents in order. -/
theorem loadLoop_continue {ε : Type} (w : Browsing ε) (urls : List String) :
    loadLoop true w urls =
      (urls.filterMap (fun u => (processURL w u).toOption), urls, none) := by
  induction urls with
  | nil => rfl
  | cons u rest ih =>
    cases h : processURL w u with
    | ok doc =>
      rw [loadLoop_cons_ok rest h, ih]
      simp [List.filterMap_cons, h, Except.toOption]
    | error e =>
      rw [loadLoop_cons_error_continue rest h, ih]
      simp [List.filterMap_cons, h, Except.toOption]

/-- When no exception escapes the loop, the documents are the successful
ones in order, every URL was visited, and — when `continue_on_failure` is
false — every URL in fact succeeded. -/
theorem loadLoop_none_eq {ε : Type} {cof : Bool} {w : Browsing ε} {urls : List String}
    {docs : List Document} {att : List String}
    (h : loadLoop cof w urls = (docs, att, none)) :
    docs = urls.filterMap (fun u => (processURL w u).toOption) ∧ att = urls ∧
      (cof = false → ∀ u ∈ urls, ∃ d, processURL w u = Except.ok d) := by
  induction urls generalizing docs att with
  | nil =>
    simp only [loadLoop, Prod.mk.injEq] at h
    obtain ⟨h1, h2, _⟩ := h
    subst h1
    subst h2
    simp
  | cons u rest ih =>
    cases hp : processURL w u with
    | ok doc =>
      rw [loadLoop_cons_ok rest hp] at h
      rcases hr : loadLoop cof w rest with ⟨rdocs, ratt, rerr⟩
      rw [hr] at h
      simp only [Prod.mk.injEq] at h
      obtain ⟨h1, h2, h3⟩ := h
      subst h3
      obtain ⟨ihd, iha, ihall⟩ := ih hr
      refine ⟨?_, ?_, ?_⟩
      · rw [← h1, ihd]
        simp [List.filterMap_cons, hp, Except.toOption]
      · rw [← h2, iha]
      · intro hcof v hv
        rcases List.mem_cons.mp hv with hvu | hvr
        · exact ⟨doc, hvu ▸ hp⟩
        · exact ihall hcof v hvr
    | error e =>
      cases hcof : cof with
      | false =>
        subst hcof
        rw [loadLoop_cons_error_abort rest hp] at h
        simp at h
      | true =>
        subst hcof
        rw [loadLoop_cons_error_continue rest hp] at h
        rcases hr : loadLoop true w rest with ⟨rdocs, ratt, rerr⟩
        rw [hr] at h
        simp only [Prod.mk.injEq] at h
        obtain ⟨h1, h2, h3⟩ := h
        subst h3
        obtain ⟨ihd, iha, _⟩ := ih hr
        refine ⟨?_, ?_, ?_⟩
        · rw [← h1, ihd]
          simp [List.filterMap_cons, hp, Except.toOption]
        · rw [← h2, iha]
        · intro hcof2
          cases hcof2

/-- Aborting run shape: all of `pre` succeeds, `bad` fails, the policy is to
abort.  The loop stops at `bad`, having navigated to `pre ++ [bad]` only. -/
theorem loadLoop_abort {ε : Type} {w : Browsing ε} (pre : List String)
    (bad : String) (post : List String) (e : ε)
    (hpre : ∀ u ∈ pre, ∃ d, processURL w u = Except.ok d)
    (hbad : processURL w bad = Except.error e) :
    loadLoop false w (pre ++ bad :: post) =
      (pre.filterMap (fun u => (processURL w u).toOption), pre ++ [bad], some e) := by
  induction pre with
  | nil =>
    simp only [List.nil_append]
    rw [loadLoop_cons_error_abort post hbad]
    simp
  | cons u rest ih =>
    obtain ⟨d, hd⟩ := hpre u (by simp)
    have ih2 := ih (fun v hv => hpre v (by simp [hv]))
    rw [List.cons_append, loadLoop_cons_ok (rest ++ bad :: post) hd, ih2]
    simp [List.filterMap_cons, hd, Except.toOption]

/-- Unfolding rule for `load` when `_get_driver` raises. -/
theorem load_driver_error {ε : Type} {self : SeleniumURLLoader} (w : Browsing ε)
    {msg : String} (hd : get_driver self = Except.error msg) :
    load self w = ⟨Except.error (LoadError.invalidBrowser msg), 0, [], self⟩ := by
  unfold load
  rw [hd]

/-- Unfolding rule for `load` when the driver is created: the outcome is
read off the loop. -/
theorem load_driver_ok {ε : Type} {self : SeleniumURLLoader} (w : Browsing ε)
    {d : Driver} (hd : get_driver self = Except.ok d) :
    load self w =
      (match (loadLoop self.continue_on_failure w self.urls).2.2 with
        | some e => ⟨Except.error (LoadError.urlFailure e), 0,
            (loadLoop self.continue_on_failure w self.urls).2.1, self⟩
        | none => ⟨Except.ok (loadLoop self.continue_on_failure w self.urls).1, 1,
            (loadLoop self.continue_on_failure w self.urls).2.1, self⟩) := by
  unfold load
  rw [hd]

/-- Whenever `load` returns normally, the returned documents are exactly the
per-URL successes in input order; moreover the driver was created, and under
the abort policy every URL must have succeeded. -/
theorem load_result_ok {ε : Type} {self : SeleniumURLLoader} {w : Browsing ε}
    {docs : List Document}
    (h : (load self w).result = Except.ok docs) :
    docs = self.urls.filterMap (fun u => (processURL w u).toOption) ∧
      (∃ d, get_driver self = Except.ok d) ∧
      (self.continue_on_failure = false →
        ∀ u ∈ self.urls, ∃ d, processURL w u = Except.ok d) := by
  cases hd : get_driver self with
  | error msg =>
    rw [load_driver_error w hd] at h
    exact absurd h (by simp)
  | ok d =>
    rw [load_driver_ok w hd] at h
    rcases hr : loadLoop self.continue_on_failure w self.urls with ⟨rdocs, ratt, rerr⟩
    rw [hr] at h
    cases rerr with
    | some e => exact absurd h (by simp)
    | none =>
      simp only [Except.ok.injEq] at h
      obtain ⟨h1, _, h3⟩ := loadLoop_none_eq hr
      subst h
      exact ⟨h1, ⟨d, rfl⟩, h3⟩


/-- The `map metadata` of the successful documents is the `source` pairing of
the successful URLs, in order. -/
theorem map_metadata_filterMap {ε : Type} (w : Browsing ε) (urls : List String) :
    ((urls.filterMap (fun u => (processURL w u).toOption)).map fun doc => doc.metadata)
      = (urls.filter fun u => ((processURL w u).toOption).isSome).map
          fun u => [("source", u)] := by
  induction urls with
  | nil => rfl
  | cons u rest ih =>
    cases h : processURL w u with
    | ok doc =>
      obtain ⟨pc, els, _, _, _, hdoc⟩ := processURL_ok_shape h
      have ht : (processURL w u).toOption = some doc := by rw [h]; rfl
      simp [List.filterMap_cons, List.filter_cons, ht, ih, hdoc]
    | error e =>
      have ht : (processURL w u).toOption = none := by rw [h]; rfl
      simp [List.filterMap_cons, List.filter_cons, ht, ih]

/-! ### Concrete loaders and oracles used to exercise the theorems -/

/-- An oracle on which navigation fails for exactly one URL
(`https://bad.test`) and the partitioner returns the whole rendered source as
a single element. -/
def mixedWorld : Browsing String :=
  ⟨fun u => if u = "https://bad.test" then Except.error "net::ERR_NAME_NOT_RESOLVED"
      else Except.ok (),
   fun u => Except.ok ("<p>" ++ u ++ "</p>"),
   fun pc => Except.ok [pc]⟩

/-- Loader over three URLs of which the middle one fails, with the
log-and-continue policy. -/
def demoLoader : SeleniumURLLoader :=
  ⟨["https://a.test", "https://bad.test", "https://b.test"], true, "chrome", none, true⟩

/-- The same three URLs under the abort policy. -/
def abortLoader : SeleniumURLLoader :=
  ⟨["https://a.test", "https://bad.test", "https://b.test"], false, "chrome", none, true⟩

/-- The document `mixedWorld` produces for a good URL `u`. -/
def docFor (u : String) : Document :=
  ⟨"<p>" ++ u ++ "</p>", [("source", u)]⟩

theorem get_driver_demoLoader :
    get_driver demoLoader = Except.ok ⟨BrowserKind.chrome, ["--headless"], none⟩ := by
  have h : demoLoader.browser.toLower = "chrome" := by
    rw [string_toLower_data]
    decide
  unfold get_driver
  rw [if_pos h]
  rfl

theorem get_driver_abortLoader :
    get_driver abortLoader = Except.ok ⟨BrowserKind.chrome, ["--headless"], none⟩ := by
  have h : abortLoader.browser.toLower = "chrome" := by
    rw [string_toLower_data]
    decide
  unfold get_driver
  rw [if_pos h]
  rfl

theorem processURL_mixedWorld_ok (u : String) (h : (u = "https://bad.test") = False) :
    processURL mixedWorld u = Except.ok (docFor u) := by
  unfold processURL mixedWorld
  simp only [h]
  rfl

theorem processURL_mixedWorld_bad :
    processURL mixedWorld "https://bad.test" =
      Except.error "net::ERR_NAME_NOT_RESOLVED" := rfl

/-- A per-URL step whose `toOption` is `some doc` succeeded with `doc`. -/
theorem processURL_toOption_some {ε : Type} {w : Browsing ε} {u : String}
    {doc : Document} (h : (processURL w u).toOption = some doc) :
    processURL w u = Except.ok doc := by
  cases hp : processURL w u with
  | ok dd =>
    rw [hp] at h
    simp only [Except.toOption] at h
    rw [Option.some.injEq] at h
    rw [h]
  | error e =>
    rw [hp] at h
    simp [Except.toOption] at h

/-- A loader whose `browser` string lowercases to neither supported value. -/
def safariLoader : SeleniumURLLoader := ⟨["https://a.test"], true, "safari", none, true⟩

/-! ### Claim theorems -/

/-- C5: for every browser value whose lowercasing is neither `chrome` nor
`firefox`, `load` raises the `ValueError` from `_get_driver` before any
navigation: no URL is attempted, no document is produced, and the loader
state is untouched. -/
theorem load_invalid_browser_no_nav {ε : Type} (self : SeleniumURLLoader)
    (w : Browsing ε) (h1 : self.browser.toLower ≠ "chrome")
    (h2 : self.browser.toLower ≠ "firefox") :
    load self w = ⟨Except.error (LoadError.invalidBrowser
      "Invalid browser specified. Use 'chrome' or 'firefox'."), 0, [], self⟩ := by
  have herr : get_driver self =
      Except.error "Invalid browser specified. Use 'chrome' or 'firefox'." := by
    unfold get_driver
    rw [if_neg h1, if_neg h2]
  exact load_driver_error w herr

/-- Witness for C5 at the concrete browser string `safari`. -/
theorem load_invalid_browser_no_nav_witness :
    load safariLoader mixedWorld = ⟨Except.error (LoadError.invalidBrowser
      "Invalid browser specified. Use 'chrome' or 'firefox'."), 0, [], safariLoader⟩ :=
  load_invalid_browser_no_nav safariLoader mixedWorld
    (by rw [string_toLower_data]; decide) (by rw [string_toLower_data]; decide)

/-- C7: a missing `selenium` or `unstructured` dependency makes construction
fail at once with a `ValueError` naming the missing package; with both
present, construction stores the supplied configuration unchanged. -/
theorem init_dependency_check (sel unstr : Bool) (urls : List String)
    (cof : Bool) (browser : String) (ep : Option String) (hl : Bool) :
    (sel = false →
      init sel unstr urls cof browser ep hl = Except.error
        "selenium package not found, please install it with `pip install selenium`") ∧
    (sel = true → unstr = false →
      init sel unstr urls cof browser ep hl = Except.error
        "unstructured package not found, please install it with `pip install unstructured`") ∧
    (sel = true → unstr = true →
      init sel unstr urls cof browser ep hl =
        Except.ok ⟨urls, cof, browser, ep, hl⟩) := by
  refine ⟨fun hs => ?_, fun hs hu => ?_, fun hs hu => ?_⟩
  · subst hs
    rfl
  · subst hs
    subst hu
    rfl
  · subst hs
    subst hu
    rfl

/-- Witness for C7 at concrete dependency flags and configuration. -/
theorem init_dependency_check_witness :
    init false true ["https://a.test"] true "chrome" none true = Except.error
      "selenium package not found, please install it with `pip install selenium`" ∧
    init true false ["https://a.test"] true "chrome" none true = Except.error
      "unstructured package not found, please install it with `pip install unstructured`" ∧
    init true true ["https://a.test"] true "chrome" none true =
      Except.ok ⟨["https://a.test"], true, "chrome", none, true⟩ :=
  ⟨(init_dependency_check false true ["https://a.test"] true "chrome" none true).1 rfl,
   (init_dependency_check true false ["https://a.test"] true "chrome" none true).2.1 rfl rfl,
   (init_dependency_check true true ["https://a.test"] true "chrome" none true).2.2 rfl rfl⟩

/-- C9: `load` never modifies the loader's configuration: the loader state
after the call is the initial one, field by field, on every path. -/
theorem load_preserves_configuration {ε : Type} (self : SeleniumURLLoader)
    (w : Browsing ε) :
    (load self w).self_after = self ∧
    (load self w).self_after.urls = self.urls ∧
    (load self w).self_after.continue_on_failure = self.continue_on_failure ∧
    (load self w).self_after.browser = self.browser ∧
    (load self w).self_after.executable_path = self.executable_path ∧
    (load self w).self_after.headless = self.headless := by
  have h : (load self w).self_after = self := by
    cases hd : get_driver self with
    | error msg => rw [load_driver_error w hd]
    | ok d =>
      rw [load_driver_ok w hd]
      cases hr : (loadLoop self.continue_on_failure w self.urls).2.2 with
      | none => rfl
      | some e => rfl
  exact ⟨h, by rw [h], by rw [h], by rw [h], by rw [h], by rw [h]⟩

/-- C10: browser selection is case-insensitive — `_get_driver` behaves
exactly as on the lowercased browser string, and it errors precisely when
the lowercasing is neither `chrome` nor `firefox`. -/
theorem get_driver_case_insensitive (self : SeleniumURLLoader) :
    get_driver self = get_driver { self with browser := self.browser.toLower } ∧
    ((∃ msg, get_driver self = Except.error msg) ↔
      (self.browser.toLower ≠ "chrome" ∧ self.browser.toLower ≠ "firefox")) := by
  constructor
  · have hb : ({ self with browser := self.browser.toLower } :
        SeleniumURLLoader).browser = self.browser.toLower := rfl
    unfold get_driver
    rw [hb, string_toLower_idem]
  · by_cases h1 : self.browser.toLower = "chrome"
    · have hok : ∃ dr, get_driver self = Except.ok dr := by
        unfold get_driver
        rw [if_pos h1]
        cases self.executable_path <;> exact ⟨_, rfl⟩
      obtain ⟨dr, hdr⟩ := hok
      simp [hdr, h1]
    · by_cases h2 : self.browser.toLower = "firefox"
      · have hok : ∃ dr, get_driver self = Except.ok dr := by
          unfold get_driver
          rw [if_neg h1, if_pos h2]
          cases self.executable_path <;> exact ⟨_, rfl⟩
        obtain ⟨dr, hdr⟩ := hok
        simp [hdr, h2]
      · have herr : get_driver self =
            Except.error "Invalid browser specified. Use 'chrome' or 'firefox'." := by
          unfold get_driver
          rw [if_neg h1, if_neg h2]
        simp [herr, h1, h2]

/-- C1 (refuted by the code): the claim requires `driver.quit()` to run
exactly once on every path of `load`, including the abort path under
`continue_on_failure = false`.  Evaluating the embedding at a failing URL
with the abort policy shows the exception propagates before the
`driver.quit()` line: the call count is 0 there, while on the
log-and-continue path over the same URLs it is 1. -/
theorem load_quit_skipped_on_abort :
    (load abortLoader mixedWorld).quit_calls = 0 ∧
    (load abortLoader mixedWorld).result =
      Except.error (LoadError.urlFailure "net::ERR_NAME_NOT_RESOLVED") ∧
    (load demoLoader mixedWorld).quit_calls = 1 := by
  refine ⟨?_, ?_, ?_⟩
  · rw [load_driver_ok mixedWorld get_driver_abortLoader]
    rfl
  · rw [load_driver_ok mixedWorld get_driver_abortLoader]
    rfl
  · rw [load_driver_ok mixedWorld get_driver_demoLoader]
    rfl

/-- C2: with the log-and-continue policy and a valid browser, `load` returns
exactly the documents of the successful URLs, in input order, and the output
length is the URL count minus the failure count. -/
theorem load_continue_filters {ε : Type} (self : SeleniumURLLoader)
    (w : Browsing ε) (d : Driver) (hcof : self.continue_on_failure = true)
    (hd : get_driver self = Except.ok d) :
    (load self w).result =
      Except.ok (self.urls.filterMap fun u => (processURL w u).toOption) ∧
    (self.urls.filterMap fun u => (processURL w u).toOption).length =
      self.urls.length -
        self.urls.countP (fun u => ((processURL w u).toOption).isNone) := by
  constructor
  · rw [load_driver_ok w hd, hcof, loadLoop_continue]
  · exact length_filterMap_eq_sub _ _

/-- Witness for C2: three URLs of which the middle one fails yield the two
surviving documents in order. -/
theorem load_continue_filters_witness :
    (load demoLoader mixedWorld).result =
      Except.ok (demoLoader.urls.filterMap fun u =>
        (processURL mixedWorld u).toOption) ∧
    (demoLoader.urls.filterMap fun u => (processURL mixedWorld u).toOption).length =
      demoLoader.urls.length -
        demoLoader.urls.countP
          (fun u => ((processURL mixedWorld u).toOption).isNone) :=
  load_continue_filters demoLoader mixedWorld
    ⟨BrowserKind.chrome, ["--headless"], none⟩ rfl get_driver_demoLoader

/-- C3: with the abort policy, the first per-URL failure is propagated to
the caller, no URL past the failure point is navigated to, and no document
list is returned. -/
theorem load_abort_on_first_failure {ε : Type} (self : SeleniumURLLoader)
    (w : Browsing ε) (d : Driver) (pre : List String) (bad : String)
    (post : List String) (e : ε)
    (hcof : self.continue_on_failure = false)
    (hd : get_driver self = Except.ok d)
    (hurls : self.urls = pre ++ bad :: post)
    (hpre : ∀ u ∈ pre, ∃ doc, processURL w u = Except.ok doc)
    (hbad : processURL w bad = Except.error e) :
    (load self w).result = Except.error (LoadError.urlFailure e) ∧
    (load self w).attempted = pre ++ [bad] := by
  have hl := loadLoop_abort pre bad post e hpre hbad
  constructor
  · rw [load_driver_ok w hd, hcof, hurls, hl]
  · rw [load_driver_ok w hd, hcof, hurls, hl]

/-- Witness for C3: the failing middle URL aborts the batch before the last
URL is attempted. -/
theorem load_abort_on_first_failure_witness :
    (load abortLoader mixedWorld).result =
      Except.error (LoadError.urlFailure "net::ERR_NAME_NOT_RESOLVED") ∧
    (load abortLoader mixedWorld).attempted =
      ["https://a.test", "https://bad.test"] :=
  load_abort_on_first_failure abortLoader mixedWorld
    ⟨BrowserKind.chrome, ["--headless"], none⟩ ["https://a.test"]
    "https://bad.test" ["https://b.test"] "net::ERR_NAME_NOT_RESOLVED"
    rfl get_driver_abortLoader rfl
    (by
      intro u hu
      rw [List.mem_singleton] at hu
      subst hu
      exact ⟨docFor "https://a.test",
        processURL_mixedWorld_ok _ (eq_false (by decide))⟩)
    processURL_mixedWorld_bad

/-- C4: whenever `load` returns a document list, the metadata of the
documents are exactly the `source`-to-URL pairings of the surviving URLs, in
order (so the i-th document's source is the i-th surviving URL). -/
theorem load_metadata_source {ε : Type} (self : SeleniumURLLoader)
    (w : Browsing ε) (docs : List Document)
    (h : (load self w).result = Except.ok docs) :
    docs.map (fun doc => doc.metadata) =
      (self.urls.filter fun u => ((processURL w u).toOption).isSome).map
        fun u => [("source", u)] := by
  obtain ⟨h1, _, _⟩ := load_result_ok h
  rw [h1, map_metadata_filterMap]

/-- Witness for C4 at the three-URL loader with one failing URL. -/
theorem load_metadata_source_witness :
    ([docFor "https://a.test", docFor "https://b.test"].map fun doc => doc.metadata) =
      (demoLoader.urls.filter fun u =>
        ((processURL mixedWorld u).toOption).isSome).map
        fun u => [("source", u)] :=
  load_metadata_source demoLoader mixedWorld
    [docFor "https://a.test", docFor "https://b.test"]
    (by rw [load_driver_ok mixedWorld get_driver_demoLoader]; rfl)

/-- C6: every document returned by `load` carries, for some input URL, the
`"\n\n"`-join of the element strings the partitioner produced from that
URL's rendered page source, together with the `source` metadata. -/
theorem load_page_content_joined {ε : Type} (self : SeleniumURLLoader)
    (w : Browsing ε) (docs : List Document)
    (h : (load self w).result = Except.ok docs) :
    ∀ doc ∈ docs, ∃ u pc els, u ∈ self.urls ∧
      w.page_source u = Except.ok pc ∧ w.partition_html pc = Except.ok els ∧
      doc.page_content = String.intercalate "\n\n" els ∧
      doc.metadata = [("source", u)] := by
  obtain ⟨h1, _, _⟩ := load_result_ok h
  subst h1
  intro doc hdoc
  obtain ⟨u, hu, hsome⟩ := List.mem_filterMap.mp hdoc
  have hok : processURL w u = Except.ok doc := processURL_toOption_some hsome
  obtain ⟨pc, els, hg, hs, hpart, hshape⟩ := processURL_ok_shape hok
  exact ⟨u, pc, els, hu, hs, hpart, by rw [hshape], by rw [hshape]⟩

/-- Witness for C6 at the first surviving document of the three-URL run. -/
theorem load_page_content_joined_witness :
    ∃ u pc els, u ∈ demoLoader.urls ∧
      mixedWorld.page_source u = Except.ok pc ∧
      mixedWorld.partition_html pc = Except.ok els ∧
      (docFor "https://a.test").page_content = String.intercalate "\n\n" els ∧
      (docFor "https://a.test").metadata = [("source", u)] :=
  load_page_content_joined demoLoader mixedWorld
    [docFor "https://a.test", docFor "https://b.test"]
    (by rw [load_driver_ok mixedWorld get_driver_demoLoader]; rfl)
    (docFor "https://a.test") (by simp)

/-- C8: a URL whose per-URL step fails contributes zero output — any
document list `load` returns equals the one obtained from the other URLs
alone, and contains no (partial) document sourced at the failed URL. -/
theorem load_failed_url_contributes_nothing {ε : Type}
    (self : SeleniumURLLoader) (w : Browsing ε) (pre post : List String)
    (u : String) (e : ε)
    (hurls : self.urls = pre ++ u :: post)
    (hfail : processURL w u = Except.error e) :
    ∀ docs, (load self w).result = Except.ok docs →
      docs = ((pre ++ post).filterMap fun x => (processURL w x).toOption) ∧
      ∀ doc ∈ docs, doc.metadata ≠ [("source", u)] := by
  intro docs h
  obtain ⟨h1, _, _⟩ := load_result_ok h
  have hopt : (processURL w u).toOption = none := by
    rw [hfail]
    rfl
  constructor
  · rw [h1, hurls]
    simp [List.filterMap_append, List.filterMap_cons, hopt]
  · intro doc hdoc hmeta
    rw [h1] at hdoc
    obtain ⟨v, hv, hsome⟩ := List.mem_filterMap.mp hdoc
    have hok : processURL w v = Except.ok doc := processURL_toOption_some hsome
    obtain ⟨pc, els, _, _, _, hshape⟩ := processURL_ok_shape hok
    rw [hshape] at hmeta
    simp only [List.cons.injEq, Prod.mk.injEq] at hmeta
    obtain ⟨⟨_, hvu⟩, _⟩ := hmeta
    subst hvu
    rw [hfail] at hok
    exact Except.noConfusion hok

/-- Witness for C8: the failing middle URL leaves exactly the two documents
of the other URLs, none of them sourced at the failed URL. -/
theorem load_failed_url_contributes_nothing_witness :
    [docFor "https://a.test", docFor "https://b.test"] =
      ((["https://a.test"] ++ ["https://b.test"]).filterMap fun x =>
        (processURL mixedWorld x).toOption) ∧
    ∀ doc ∈ [docFor "https://a.test", docFor "https://b.test"],
      doc.metadata ≠ [("source", "https://bad.test")] :=
  load_failed_url_contributes_nothing demoLoader mixedWorld
    ["https://a.test"] ["https://b.test"] "https://bad.test"
    "net::ERR_NAME_NOT_RESOLVED" rfl processURL_mixedWorld_bad
    [docFor "https://a.test", docFor "https://b.test"]
    (by rw [load_driver_ok mixedWorld get_driver_demoLoader]; rfl)

end UrlSelenium
